import Mathlib

/-!
Verification of the educational-platform data model (`main.py`): students,
lecturers and reviewers who rate each other's work within named courses.

The Python classes are embedded as Lean structures; each mutating method
becomes a function from the old state to the new state paired with the
method's return value (`none` for Python's implicit `None`, `some msg` for a
sentinel error string).  Python dicts are insertion-ordered association
lists with unique keys; Python's float division `sum / len` is modelled
exactly in `ℚ`.
-/

namespace OOPHW

/-- A Python dict from course name to the ordered list of integer grades,
as an insertion-ordered association list (Python dicts preserve insertion
order and have unique keys). -/
abbrev GradesMap := List (String × List Int)

/-- Dict indexing `d[course]`: the value at the (unique) entry whose key is
`course`, or `none` when `course not in d`. -/
def GradesMap.find : GradesMap → String → Option (List Int)
  | [], _ => none
  | (k, v) :: rest, course => if course = k then some v else GradesMap.find rest course

/-- The grade-recording step shared by `rate_lecture` and `rate_hw`:
`d[course] += [grade]` when `course in d`, else `d[course] = [grade]`
(a fresh key is appended at the end, per dict insertion order). -/
def GradesMap.addGrade : GradesMap → String → Int → GradesMap
  | [], course, grade => [(course, [grade])]
  | (k, v) :: rest, course, grade =>
    if course = k then (k, v ++ [grade]) :: rest
    else (k, v) :: GradesMap.addGrade rest course grade

/-- `class Student`: identity fields plus the three mutable collections. -/
structure Student where
  name : String
  surname : String
  gender : String
  finished_courses : List String
  courses_in_progress : List String
  grades : GradesMap
deriving DecidableEq

/-- `Student.__init__(name, surname, gender)`: collections start empty. -/
def Student.init (name surname gender : String) : Student :=
  ⟨name, surname, gender, [], [], []⟩

/-- `class Lecturer(Mentor)`: the inherited `Mentor` fields flattened in,
plus the received-lecture grades map. -/
structure Lecturer where
  name : String
  surname : String
  courses_attached : List String
  grades : GradesMap
deriving DecidableEq

/-- `Lecturer.__init__(name, surname)`. -/
def Lecturer.init (name surname : String) : Lecturer :=
  ⟨name, surname, [], []⟩

/-- `class Reviewer(Mentor)`: the inherited `Mentor` fields only. -/
structure Reviewer where
  name : String
  surname : String
  courses_attached : List String
deriving DecidableEq

/-- `Reviewer.__init__(name, surname)`. -/
def Reviewer.init (name surname : String) : Reviewer :=
  ⟨name, surname, []⟩

/-- A dynamically typed argument of a rating or comparison method: any of
the three entity classes of the program (`isinstance` checks dispatch on
this). -/
inductive Entity where
  | student : Student → Entity
  | lecturer : Lecturer → Entity
  | reviewer : Reviewer → Entity
deriving DecidableEq

/-- `Student.add_finished_course(course)`: append if absent, otherwise
return the duplicate-error string. -/
def Student.add_finished_course (self : Student) (course : String) :
    Student × Option String :=
  if course ∉ self.finished_courses then
    ({ self with finished_courses := self.finished_courses ++ [course] }, none)
  else
    (self, some "add_finished_course ERROR")

/-- `Student.add_courses_in_progress(course)`: same contract on the
in-progress list. -/
def Student.add_courses_in_progress (self : Student) (course : String) :
    Student × Option String :=
  if course ∉ self.courses_in_progress then
    ({ self with courses_in_progress := self.courses_in_progress ++ [course] }, none)
  else
    (self, some "add_courses_in_progress ERROR")

/-- `Mentor.mentor_add_course(course)` as inherited by `Lecturer`. -/
def Lecturer.mentor_add_course (self : Lecturer) (course : String) :
    Lecturer × Option String :=
  if course ∉ self.courses_attached then
    ({ self with courses_attached := self.courses_attached ++ [course] }, none)
  else
    (self, some "mentor_add_course ERROR")

/-- `Mentor.mentor_add_course(course)` as inherited by `Reviewer`. -/
def Reviewer.mentor_add_course (self : Reviewer) (course : String) :
    Reviewer × Option String :=
  if course ∉ self.courses_attached then
    ({ self with courses_attached := self.courses_attached ++ [course] }, none)
  else
    (self, some "mentor_add_course ERROR")

/-- `Student.rate_lecture(lecturer, course, grade)`: the source mutates only
the `lecturer` argument and never assigns to `self`, so the result is the
(possibly updated) argument paired with the returned value. -/
def Student.rate_lecture (self : Student) (lecturer : Entity) (course : String)
    (grade : Int) : Entity × Option String :=
  match lecturer with
  | .lecturer l =>
    if course ∈ l.courses_attached ∧ course ∈ self.courses_in_progress ∧
        0 ≤ grade ∧ grade ≤ 10 then
      (.lecturer { l with grades := GradesMap.addGrade l.grades course grade }, none)
    else
      (.lecturer l, some "ERROR!")
  | other => (other, some "ERROR!")

/-- `Reviewer.rate_hw(student, course, grade)`: mutates only the `student`
argument; note the absence of any range condition on `grade`. -/
def Reviewer.rate_hw (self : Reviewer) (student : Entity) (course : String)
    (grade : Int) : Entity × Option String :=
  match student with
  | .student s =>
    if course ∈ self.courses_attached ∧ course ∈ s.courses_in_progress then
      (.student { s with grades := GradesMap.addGrade s.grades course grade }, none)
    else
      (.student s, some "rate_hw function ERROR")
  | other => (other, some "rate_hw function ERROR")

/-- `own_average_grade(grades_dict)`: extend `all_grades` by each value in
iteration order, then `sum / len`, or `0` when `all_grades` is empty. -/
def own_average_grade (grades_dict : GradesMap) : ℚ :=
  let all_grades := grades_dict.foldl (fun acc p => acc ++ p.2) ([] : List Int)
  if all_grades = [] then 0
  else (all_grades.sum : ℚ) / (all_grades.length : ℚ)

/-- `students_average_grade(students_list, course)`: extend by each
student's `course` entry when present, then `sum / len`, or `0.0`. -/
def students_average_grade (students_list : List Student) (course : String) : ℚ :=
  let all_grades := students_list.foldl
    (fun acc student =>
      match GradesMap.find student.grades course with
      | some gs => acc ++ gs
      | none => acc) ([] : List Int)
  if all_grades = [] then 0
  else (all_grades.sum : ℚ) / (all_grades.length : ℚ)

/-- `mentors_average_grade(lecturers_list, course)`: the same over the
lecturers' received-lecture grade maps. -/
def mentors_average_grade (lecturers_list : List Lecturer) (course : String) : ℚ :=
  let all_grades := lecturers_list.foldl
    (fun acc lecturer =>
      match GradesMap.find lecturer.grades course with
      | some gs => acc ++ gs
      | none => acc) ([] : List Int)
  if all_grades = [] then 0
  else (all_grades.sum : ℚ) / (all_grades.length : ℚ)

/-- The value a Python comparison dunder returns here: a proper boolean, or
the sentinel string `"COMPARE ERROR"` on a type mismatch. -/
inductive PyCmp where
  | bool : Bool → PyCmp
  | err : String → PyCmp
deriving DecidableEq

/-- Python truthiness of such a value (a nonempty string is truthy). -/
def PyCmp.truthy : PyCmp → Bool
  | .bool b => b
  | .err s => decide (s ≠ "")

/-- `Student.__eq__`: equality of the two average grades, or the sentinel
when `other` is not a `Student`. -/
def Student.eq (self : Student) (other : Entity) : PyCmp :=
  match other with
  | .student o =>
    .bool (decide (own_average_grade self.grades = own_average_grade o.grades))
  | _ => .err "COMPARE ERROR"

/-- `Student.__lt__`: strict comparison of the two average grades, or the
sentinel when `other` is not a `Student`. -/
def Student.lt (self : Student) (other : Entity) : PyCmp :=
  match other with
  | .student o =>
    .bool (decide (own_average_grade self.grades < own_average_grade o.grades))
  | _ => .err "COMPARE ERROR"

/-- `Lecturer.__eq__`: as for students, over received-lecture grades. -/
def Lecturer.eq (self : Lecturer) (other : Entity) : PyCmp :=
  match other with
  | .lecturer o =>
    .bool (decide (own_average_grade self.grades = own_average_grade o.grades))
  | _ => .err "COMPARE ERROR"

/-- `Lecturer.__lt__`. -/
def Lecturer.lt (self : Lecturer) (other : Entity) : PyCmp :=
  match other with
  | .lecturer o =>
    .bool (decide (own_average_grade self.grades < own_average_grade o.grades))
  | _ => .err "COMPARE ERROR"

/-- Python's default `__ne__` (`object.__ne__`): the negated truthiness of
`__eq__`'s result, always a boolean here since `__eq__` never returns
`NotImplemented`. -/
def Student.ne (self : Student) (other : Entity) : PyCmp :=
  .bool (!(Student.eq self other).truthy)

/-- `__gt__` as `functools.total_ordering` derives it from `__lt__`:
`not op_result and self != other`, where `op_result = self.__lt__(other)`.
`not op_result` is a boolean, and `and` short-circuits on a falsy left
operand. -/
def Student.gt (self : Student) (other : Entity) : PyCmp :=
  if (Student.lt self other).truthy then .bool false
  else Student.ne self other

/-- `__le__` as `functools.total_ordering` derives it from `__lt__`:
`op_result or self == other`; Python's `or` returns the left operand itself
when it is truthy. -/
def Student.le (self : Student) (other : Entity) : PyCmp :=
  if (Student.lt self other).truthy then Student.lt self other
  else Student.eq self other

/-- `__ge__` as `functools.total_ordering` derives it from `__lt__`:
`not op_result`, always a boolean. -/
def Student.ge (self : Student) (other : Entity) : PyCmp :=
  .bool (!(Student.lt self other).truthy)

/-- Python's default `__ne__` for `Lecturer`. -/
def Lecturer.ne (self : Lecturer) (other : Entity) : PyCmp :=
  .bool (!(Lecturer.eq self other).truthy)

/-- `__gt__` for `Lecturer`, derived by `functools.total_ordering`. -/
def Lecturer.gt (self : Lecturer) (other : Entity) : PyCmp :=
  if (Lecturer.lt self other).truthy then .bool false
  else Lecturer.ne self other

/-- `__le__` for `Lecturer`, derived by `functools.total_ordering`. -/
def Lecturer.le (self : Lecturer) (other : Entity) : PyCmp :=
  if (Lecturer.lt self other).truthy then Lecturer.lt self other
  else Lecturer.eq self other

/-- `__ge__` for `Lecturer`, derived by `functools.total_ordering`. -/
def Lecturer.ge (self : Lecturer) (other : Entity) : PyCmp :=
  .bool (!(Lecturer.lt self other).truthy)

/-- The arithmetic mean of a list of integer grades, `0` for the empty
list; the specification-side notion the average functions are compared
against. -/
def listMean (l : List Int) : ℚ :=
  if l = [] then 0 else (l.sum : ℚ) / (l.length : ℚ)

/-- The old grade map relates to the new one by append-only growth: every
entry is untouched, or has exactly one grade appended (an absent entry
counts as the empty list). -/
def GradesMap.growsTo (old new : GradesMap) : Prop :=
  ∀ c, GradesMap.find new c = GradesMap.find old c ∨
    ∃ g, GradesMap.find new c = some ((GradesMap.find old c).getD [] ++ [g])

/-- The per-list no-duplicates invariant of an entity's course-name lists. -/
def Entity.coursesNodup : Entity → Prop
  | .student st => st.finished_courses.Nodup ∧ st.courses_in_progress.Nodup
  | .lecturer l => l.courses_attached.Nodup
  | .reviewer r => r.courses_attached.Nodup

/-- The grade map an entity carries (a reviewer carries none). -/
def Entity.gradesOf : Entity → GradesMap
  | .student st => st.grades
  | .lecturer l => l.grades
  | .reviewer _ => []

theorem foldl_extend_eq_flatten {α : Type} (f : α → List Int) (l : List α)
    (init : List Int) :
    l.foldl (fun acc a => acc ++ f a) init = init ++ (l.map f).flatten := by
  induction l generalizing init with
  | nil => simp
  | cons hd tl ih => simp [ih, List.append_assoc]

theorem students_collect_eq_flatten (students_list : List Student) (course : String)
    (init : List Int) :
    students_list.foldl
      (fun acc student =>
        match GradesMap.find student.grades course with
        | some gs => acc ++ gs
        | none => acc) init
      = init ++ (students_list.filterMap
          (fun s => GradesMap.find s.grades course)).flatten := by
  induction students_list generalizing init with
  | nil => simp
  | cons hd tl ih =>
    cases h : GradesMap.find hd.grades course <;>
      simp [h, ih, List.append_assoc]

theorem mentors_collect_eq_flatten (lecturers_list : List Lecturer) (course : String)
    (init : List Int) :
    lecturers_list.foldl
      (fun acc lecturer =>
        match GradesMap.find lecturer.grades course with
        | some gs => acc ++ gs
        | none => acc) init
      = init ++ (lecturers_list.filterMap
          (fun l => GradesMap.find l.grades course)).flatten := by
  induction lecturers_list generalizing init with
  | nil => simp
  | cons hd tl ih =>
    cases h : GradesMap.find hd.grades course <;>
      simp [h, ih, List.append_assoc]

theorem own_average_grade_eq_listMean (G : GradesMap) :
    own_average_grade G = listMean ((G.map Prod.snd).flatten) := by
  have h := foldl_extend_eq_flatten Prod.snd G ([] : List Int)
  simp only [own_average_grade, listMean]
  rw [h]
  simp

theorem GradesMap.find_addGrade (d : GradesMap) (course c : String) (grade : Int) :
    GradesMap.find (GradesMap.addGrade d course grade) c =
      if c = course then some ((GradesMap.find d course).getD [] ++ [grade])
      else GradesMap.find d c := by
  induction d with
  | nil =>
    by_cases h : c = course <;> simp [GradesMap.addGrade, GradesMap.find, h]
  | cons hd tl ih =>
    obtain ⟨k, v⟩ := hd
    by_cases hck : course = k
    · subst hck
      by_cases h : c = course <;> simp [GradesMap.addGrade, GradesMap.find, h]
    · by_cases h : c = k
      · subst h
        have hcc : ¬c = course := fun hh => hck hh.symm
        simp [GradesMap.addGrade, GradesMap.find, hck, hcc]
      · simp [GradesMap.addGrade, GradesMap.find, hck, h, ih]

theorem GradesMap.growsTo_refl (d : GradesMap) : GradesMap.growsTo d d :=
  fun _ => Or.inl rfl

theorem GradesMap.growsTo_addGrade (d : GradesMap) (course : String) (grade : Int) :
    GradesMap.growsTo d (GradesMap.addGrade d course grade) := by
  intro c
  rw [GradesMap.find_addGrade]
  by_cases h : c = course
  · exact Or.inr ⟨grade, by simp [h]⟩
  · exact Or.inl (by simp [h])

theorem nodup_append_singleton {c : String} {l : List String}
    (h : c ∉ l) (hn : l.Nodup) : (l ++ [c]).Nodup := by
  simp [List.nodup_append, hn, h]

/-- Claim C3: for every grade map `G`, `own_average_grade G` equals the
arithmetic mean of the concatenation of all the grade lists in `G`, and
equals `0` when `G` is empty or every list in `G` is empty. -/
theorem own_average_grade_is_flattened_mean (G : GradesMap) :
    own_average_grade G = listMean ((G.map Prod.snd).flatten) ∧
    ((G = [] ∨ ∀ p ∈ G, p.2 = []) → own_average_grade G = 0) := by
  refine ⟨own_average_grade_eq_listMean G, fun h => ?_⟩
  have hnil : (G.map Prod.snd).flatten = [] := by
    rcases h with h | h
    · subst h; simp
    · rw [List.flatten_eq_nil_iff]
      intro l hl
      obtain ⟨p, hp, rfl⟩ := List.mem_map.mp hl
      exact h p hp
  rw [own_average_grade_eq_listMean G, hnil]
  simp [listMean]

/-- Claim C5: `students_average_grade` is the arithmetic mean of the
concatenation of the `course` grade lists of exactly those students whose
grade map contains `course` (students without an entry contribute
nothing), `0` when that concatenation is empty; `mentors_average_grade`
behaves the same over the lecturers' received-lecture grade maps. -/
theorem course_average_ignores_absent_entries
    (students_list : List Student) (lecturers_list : List Lecturer)
    (course : String) :
    students_average_grade students_list course =
      listMean ((students_list.filterMap
        (fun s => GradesMap.find s.grades course)).flatten) ∧
    mentors_average_grade lecturers_list course =
      listMean ((lecturers_list.filterMap
        (fun l => GradesMap.find l.grades course)).flatten) := by
  constructor
  · have h := students_collect_eq_flatten students_list course ([] : List Int)
    simp only [students_average_grade, listMean]
    rw [h]
    simp
  · have h := mentors_collect_eq_flatten lecturers_list course ([] : List Int)
    simp only [mentors_average_grade, listMean]
    rw [h]
    simp

/-- Claim C6: `s1 < s2` returns `True` exactly when the arithmetic mean of
`s1`'s homework grades flattened across all courses is strictly below
`s2`'s flattened cross-course mean, and `s1 == s2` returns `True` exactly
when the two flattened means are equal. -/
theorem student_ordering_compares_flattened_means (s1 s2 : Student) :
    (Student.lt s1 (Entity.student s2) = PyCmp.bool true ↔
      listMean ((s1.grades.map Prod.snd).flatten) <
        listMean ((s2.grades.map Prod.snd).flatten)) ∧
    (Student.eq s1 (Entity.student s2) = PyCmp.bool true ↔
      listMean ((s1.grades.map Prod.snd).flatten) =
        listMean ((s2.grades.map Prod.snd).flatten)) := by
  constructor
  · rw [← own_average_grade_eq_listMean s1.grades, ← own_average_grade_eq_listMean s2.grades]
    simp [Student.lt]
  · rw [← own_average_grade_eq_listMean s1.grades, ← own_average_grade_eq_listMean s2.grades]
    simp [Student.eq]

/-- Claim C4: every add operation on a unique-course list (a student's
finished courses, a student's courses in progress, a mentor's attached
courses) leaves the list unchanged and returns the duplicate-error
indicator when the course is already present, and appends the course and
returns no error when it is absent. -/
theorem add_course_duplicate_handling (st : Student) (l : Lecturer)
    (r : Reviewer) (course : String) :
    ((course ∈ st.finished_courses →
        Student.add_finished_course st course =
          (st, some "add_finished_course ERROR")) ∧
     (course ∉ st.finished_courses →
        Student.add_finished_course st course =
          ({ st with finished_courses := st.finished_courses ++ [course] }, none))) ∧
    ((course ∈ st.courses_in_progress →
        Student.add_courses_in_progress st course =
          (st, some "add_courses_in_progress ERROR")) ∧
     (course ∉ st.courses_in_progress →
        Student.add_courses_in_progress st course =
          ({ st with courses_in_progress := st.courses_in_progress ++ [course] },
            none))) ∧
    ((course ∈ l.courses_attached →
        Lecturer.mentor_add_course l course =
          (l, some "mentor_add_course ERROR")) ∧
     (course ∉ l.courses_attached →
        Lecturer.mentor_add_course l course =
          ({ l with courses_attached := l.courses_attached ++ [course] }, none))) ∧
    ((course ∈ r.courses_attached →
        Reviewer.mentor_add_course r course =
          (r, some "mentor_add_course ERROR")) ∧
     (course ∉ r.courses_attached →
        Reviewer.mentor_add_course r course =
          ({ r with courses_attached := r.courses_attached ++ [course] }, none))) := by
  repeat' apply And.intro
  all_goals intro h
  all_goals
    simp [Student.add_finished_course, Student.add_courses_in_progress,
      Lecturer.mentor_add_course, Reviewer.mentor_add_course, h]

/-- Claim C9: when `course` is in a student's courses-in-progress list and
not in the finished-courses list, `add_finished_course` appends it and
returns no error, after which the course appears in both lists at once:
neither add operation checks the other list. -/
theorem finished_course_can_join_in_progress (st : Student) (course : String)
    (h1 : course ∈ st.courses_in_progress) (h2 : course ∉ st.finished_courses) :
    (Student.add_finished_course st course).2 = none ∧
    course ∈ (Student.add_finished_course st course).1.finished_courses ∧
    course ∈ (Student.add_finished_course st course).1.courses_in_progress := by
  simp [Student.add_finished_course, h2, h1]

/-- A student enrolled in Python (and with no finished course), built by the
program's own operations. -/
def pythonStudent : Student :=
  ((Student.init "Ivan" "Ivanov" "M").add_courses_in_progress "Python").1

/-- The overlap theorem applied at a concrete student. -/
theorem finished_course_can_join_in_progress_holds :
    (Student.add_finished_course pythonStudent "Python").2 = none ∧
    "Python" ∈ (Student.add_finished_course pythonStudent "Python").1.finished_courses ∧
    "Python" ∈ (Student.add_finished_course pythonStudent "Python").1.courses_in_progress :=
  finished_course_can_join_in_progress pythonStudent "Python" (by decide) (by decide)

/-- Claim C1: `rate_lecture` appends the grade to the lecturer's grade
list for the course exactly when all four conditions hold (the argument is
a `Lecturer`, the course is attached to it, the course is in the calling
student's courses in progress, and `0 ≤ grade ≤ 10`); when any condition
fails it returns the error indicator and changes nothing (the method never
touches the calling student's state, as `Student.rate_lecture` mutates
only its argument). -/
theorem rate_lecture_all_or_nothing (self : Student) (e : Entity)
    (course : String) (grade : Int) :
    (∀ l : Lecturer, e = Entity.lecturer l →
      ((course ∈ l.courses_attached ∧ course ∈ self.courses_in_progress ∧
          0 ≤ grade ∧ grade ≤ 10) →
        Student.rate_lecture self e course grade =
          (Entity.lecturer { l with grades := GradesMap.addGrade l.grades course grade },
            none) ∧
        GradesMap.find (GradesMap.addGrade l.grades course grade) course =
          some ((GradesMap.find l.grades course).getD [] ++ [grade])) ∧
      (¬(course ∈ l.courses_attached ∧ course ∈ self.courses_in_progress ∧
          0 ≤ grade ∧ grade ≤ 10) →
        Student.rate_lecture self e course grade = (e, some "ERROR!"))) ∧
    ((∀ l : Lecturer, e ≠ Entity.lecturer l) →
      Student.rate_lecture self e course grade = (e, some "ERROR!")) := by
  constructor
  · rintro l rfl
    constructor
    · intro h
      refine ⟨by simp [Student.rate_lecture, h], ?_⟩
      rw [GradesMap.find_addGrade]
      simp
    · intro h
      simp [Student.rate_lecture, h]
  · intro h
    cases e with
    | lecturer l => exact absurd rfl (h l)
    | student s => rfl
    | reviewer r => rfl

/-- Claim C2: `rate_hw` appends the grade verbatim (no range check or
clamping: `grade` ranges over all integers here) to the student's
homework-grade list for the course exactly when all three conditions hold
(the argument is a `Student`, the course is attached to the reviewer, and
the course is in the student's courses in progress); when any condition
fails it returns the error indicator and leaves the student's grade map
unchanged. -/
theorem rate_hw_gating_no_range_check (self : Reviewer) (e : Entity)
    (course : String) (grade : Int) :
    (∀ s : Student, e = Entity.student s →
      ((course ∈ self.courses_attached ∧ course ∈ s.courses_in_progress) →
        Reviewer.rate_hw self e course grade =
          (Entity.student { s with grades := GradesMap.addGrade s.grades course grade },
            none) ∧
        GradesMap.find (GradesMap.addGrade s.grades course grade) course =
          some ((GradesMap.find s.grades course).getD [] ++ [grade])) ∧
      (¬(course ∈ self.courses_attached ∧ course ∈ s.courses_in_progress) →
        Reviewer.rate_hw self e course grade = (e, some "rate_hw function ERROR"))) ∧
    ((∀ s : Student, e ≠ Entity.student s) →
      Reviewer.rate_hw self e course grade = (e, some "rate_hw function ERROR")) := by
  constructor
  · rintro s rfl
    constructor
    · intro h
      refine ⟨by simp [Reviewer.rate_hw, h], ?_⟩
      rw [GradesMap.find_addGrade]
      simp
    · intro h
      simp [Reviewer.rate_hw, h]
  · intro h
    cases e with
    | student s => exact absurd rfl (h s)
    | lecturer l => rfl
    | reviewer r => rfl

/-- Claim C10: a successful rating call mutates only the ratee's grade-map
entry for the given course: `rate_lecture` leaves the lecturer's identity
fields, attached courses and every other course's grade list unchanged
(and never touches the calling student), and `rate_hw` likewise changes
only the student's homework-grade list for the given course. -/
theorem rating_mutates_only_target_entry (self : Student) (r : Reviewer)
    (l : Lecturer) (st : Student) (course : String) (grade : Int) :
    ((course ∈ l.courses_attached ∧ course ∈ self.courses_in_progress ∧
        0 ≤ grade ∧ grade ≤ 10) →
      ∃ l' : Lecturer,
        Student.rate_lecture self (Entity.lecturer l) course grade =
          (Entity.lecturer l', none) ∧
        l'.name = l.name ∧ l'.surname = l.surname ∧
        l'.courses_attached = l.courses_attached ∧
        GradesMap.find l'.grades course =
          some ((GradesMap.find l.grades course).getD [] ++ [grade]) ∧
        ∀ c, c ≠ course → GradesMap.find l'.grades c = GradesMap.find l.grades c) ∧
    ((course ∈ r.courses_attached ∧ course ∈ st.courses_in_progress) →
      ∃ st' : Student,
        Reviewer.rate_hw r (Entity.student st) course grade =
          (Entity.student st', none) ∧
        st'.name = st.name ∧ st'.surname = st.surname ∧ st'.gender = st.gender ∧
        st'.finished_courses = st.finished_courses ∧
        st'.courses_in_progress = st.courses_in_progress ∧
        GradesMap.find st'.grades course =
          some ((GradesMap.find st.grades course).getD [] ++ [grade]) ∧
        ∀ c, c ≠ course → GradesMap.find st'.grades c = GradesMap.find st.grades c) := by
  constructor
  · intro h
    refine ⟨{ l with grades := GradesMap.addGrade l.grades course grade },
      by simp [Student.rate_lecture, h], rfl, rfl, rfl, ?_, ?_⟩
    · rw [GradesMap.find_addGrade]; simp
    · intro c hc; rw [GradesMap.find_addGrade]; simp [hc]
  · intro h
    refine ⟨{ st with grades := GradesMap.addGrade st.grades course grade },
      by simp [Reviewer.rate_hw, h], rfl, rfl, rfl, rfl, rfl, ?_, ?_⟩
    · rw [GradesMap.find_addGrade]; simp
    · intro c hc; rw [GradesMap.find_addGrade]; simp [hc]

/-- A fresh student and reviewer used to exhibit concrete comparison
results. -/
def aStudent : Student := Student.init "Ivan" "Ivanov" "M"

/-- A fresh reviewer (an entity incompatible with both `Student` and
`Lecturer` comparisons). -/
def aReviewer : Reviewer := Reviewer.init "Vladimir" "Smirnov"

/-- Claim C7 fails: the derived comparisons `>`, `>=` and `!=` of a student
against a reviewer return the boolean `False`, not an error indicator,
because `functools.total_ordering` and Python's default `__ne__` negate
the truthy `"COMPARE ERROR"` string into a genuine boolean. -/
theorem compare_mismatch_yields_boolean :
    Student.gt aStudent (Entity.reviewer aReviewer) = PyCmp.bool false ∧
    Student.ge aStudent (Entity.reviewer aReviewer) = PyCmp.bool false ∧
    Student.ne aStudent (Entity.reviewer aReviewer) = PyCmp.bool false ∧
    ∀ s : String, PyCmp.bool false ≠ PyCmp.err s := by
  refine ⟨rfl, rfl, rfl, fun s h => ?_⟩
  cases h

/-- Claim C7 (amended): comparing an entity against an incompatible type
via the source-defined `==` and `<` (and the derived `<=`, which returns
the truthy error string itself) yields the `"COMPARE ERROR"` indicator
rather than a boolean; the derived `!=`, `>` and `>=` instead yield the
boolean `False`, since `total_ordering` and the default `__ne__` negate
the truthy error string. -/
theorem compare_mismatch_sentinels (s : Student) (l : Lecturer) (r : Reviewer) :
    Student.eq s (Entity.lecturer l) = PyCmp.err "COMPARE ERROR" ∧
    Student.eq s (Entity.reviewer r) = PyCmp.err "COMPARE ERROR" ∧
    Student.lt s (Entity.lecturer l) = PyCmp.err "COMPARE ERROR" ∧
    Student.lt s (Entity.reviewer r) = PyCmp.err "COMPARE ERROR" ∧
    Student.le s (Entity.lecturer l) = PyCmp.err "COMPARE ERROR" ∧
    Student.le s (Entity.reviewer r) = PyCmp.err "COMPARE ERROR" ∧
    Lecturer.eq l (Entity.student s) = PyCmp.err "COMPARE ERROR" ∧
    Lecturer.eq l (Entity.reviewer r) = PyCmp.err "COMPARE ERROR" ∧
    Lecturer.lt l (Entity.student s) = PyCmp.err "COMPARE ERROR" ∧
    Lecturer.lt l (Entity.reviewer r) = PyCmp.err "COMPARE ERROR" ∧
    Lecturer.le l (Entity.student s) = PyCmp.err "COMPARE ERROR" ∧
    Lecturer.le l (Entity.reviewer r) = PyCmp.err "COMPARE ERROR" ∧
    Student.ne s (Entity.lecturer l) = PyCmp.bool false ∧
    Student.gt s (Entity.lecturer l) = PyCmp.bool false ∧
    Student.ge s (Entity.reviewer r) = PyCmp.bool false ∧
    Lecturer.ne l (Entity.student s) = PyCmp.bool false ∧
    Lecturer.gt l (Entity.student s) = PyCmp.bool false ∧
    Lecturer.ge l (Entity.reviewer r) = PyCmp.bool false := by
  simp [Student.eq, Student.lt, Student.le, Student.ne, Student.gt, Student.ge,
    Lecturer.eq, Lecturer.lt, Lecturer.le, Lecturer.ne, Lecturer.gt, Lecturer.ge,
    PyCmp.truthy]

/-- Claim C8: each freshly constructed entity starts with duplicate-free
course-name lists (and an empty grade map), and every public operation
preserves the no-duplicates invariant of the finished, in-progress and
attached course lists while grade maps only ever grow by appending (no
entry or grade is removed). -/
theorem course_lists_nodup_and_grades_append_only :
    (∀ n sn g, (Student.init n sn g).finished_courses.Nodup ∧
      (Student.init n sn g).courses_in_progress.Nodup ∧
      (Student.init n sn g).grades = []) ∧
    (∀ n sn, (Lecturer.init n sn).courses_attached.Nodup ∧
      (Lecturer.init n sn).grades = []) ∧
    (∀ n sn, (Reviewer.init n sn).courses_attached.Nodup) ∧
    (∀ (st : Student) (course : String),
      st.finished_courses.Nodup → st.courses_in_progress.Nodup →
      (Student.add_finished_course st course).1.finished_courses.Nodup ∧
      (Student.add_finished_course st course).1.courses_in_progress.Nodup ∧
      GradesMap.growsTo st.grades (Student.add_finished_course st course).1.grades) ∧
    (∀ (st : Student) (course : String),
      st.finished_courses.Nodup → st.courses_in_progress.Nodup →
      (Student.add_courses_in_progress st course).1.finished_courses.Nodup ∧
      (Student.add_courses_in_progress st course).1.courses_in_progress.Nodup ∧
      GradesMap.growsTo st.grades
        (Student.add_courses_in_progress st course).1.grades) ∧
    (∀ (l : Lecturer) (course : String), l.courses_attached.Nodup →
      (Lecturer.mentor_add_course l course).1.courses_attached.Nodup ∧
      GradesMap.growsTo l.grades (Lecturer.mentor_add_course l course).1.grades) ∧
    (∀ (r : Reviewer) (course : String), r.courses_attached.Nodup →
      (Reviewer.mentor_add_course r course).1.courses_attached.Nodup) ∧
    (∀ (self : Student) (e : Entity) (course : String) (grade : Int),
      Entity.coursesNodup e →
      Entity.coursesNodup (Student.rate_lecture self e course grade).1 ∧
      GradesMap.growsTo (Entity.gradesOf e)
        (Entity.gradesOf (Student.rate_lecture self e course grade).1)) ∧
    (∀ (r : Reviewer) (e : Entity) (course : String) (grade : Int),
      Entity.coursesNodup e →
      Entity.coursesNodup (Reviewer.rate_hw r e course grade).1 ∧
      GradesMap.growsTo (Entity.gradesOf e)
        (Entity.gradesOf (Reviewer.rate_hw r e course grade).1)) := by
  refine ⟨fun n sn g => ⟨List.nodup_nil, List.nodup_nil, rfl⟩,
    fun n sn => ⟨List.nodup_nil, rfl⟩,
    fun n sn => List.nodup_nil,
    fun st course h1 h2 => ?_, fun st course h1 h2 => ?_,
    fun l course h => ?_, fun r course h => ?_,
    fun self e course grade h => ?_, fun r e course grade h => ?_⟩
  · by_cases hc : course ∈ st.finished_courses <;>
      simp [Student.add_finished_course, hc, h1, h2,
        nodup_append_singleton, GradesMap.growsTo_refl]
  · by_cases hc : course ∈ st.courses_in_progress <;>
      simp [Student.add_courses_in_progress, hc, h1, h2,
        nodup_append_singleton, GradesMap.growsTo_refl]
  · by_cases hc : course ∈ l.courses_attached <;>
      simp [Lecturer.mentor_add_course, hc, h,
        nodup_append_singleton, GradesMap.growsTo_refl]
  · by_cases hc : course ∈ r.courses_attached <;>
      simp [Reviewer.mentor_add_course, hc, h,
        nodup_append_singleton]
  · cases e with
    | lecturer l =>
      by_cases hc : course ∈ l.courses_attached ∧ course ∈ self.courses_in_progress ∧
          0 ≤ grade ∧ grade ≤ 10
      · simpa [Student.rate_lecture, hc, Entity.coursesNodup, Entity.gradesOf]
          using ⟨h, GradesMap.growsTo_addGrade l.grades course grade⟩
      · simpa [Student.rate_lecture, hc, Entity.coursesNodup, Entity.gradesOf]
          using ⟨h, GradesMap.growsTo_refl l.grades⟩
    | student s =>
      exact ⟨h, GradesMap.growsTo_refl _⟩
    | reviewer rv =>
      exact ⟨h, GradesMap.growsTo_refl _⟩
  · cases e with
    | student s =>
      by_cases hc : course ∈ r.courses_attached ∧ course ∈ s.courses_in_progress
      · simpa [Reviewer.rate_hw, hc, Entity.coursesNodup, Entity.gradesOf]
          using ⟨h, GradesMap.growsTo_addGrade s.grades course grade⟩
      · simpa [Reviewer.rate_hw, hc, Entity.coursesNodup, Entity.gradesOf]
          using ⟨h, GradesMap.growsTo_refl s.grades⟩
    | lecturer l =>
      exact ⟨h, GradesMap.growsTo_refl _⟩
    | reviewer rv =>
      exact ⟨h, GradesMap.growsTo_refl _⟩

end OOPHW
